import Mathlib

/-!
A shallow embedding of `src/pytun.py` (pytun 1.0.1), a tun/tap tunnel
handle for Linux, together with theorems checking its specification.

The embedding models the `Tunnel` class: its constructor (`Tunnel.init`,
lines 50-74 of the source), `open` (lines 89-108), and `close`
(lines 110-114).  OS interaction (`os.open` on the control device and
`fcntl.ioctl`) is modelled by an oracle structure `OS` supplying the
outcome of each call.  Bytes are `Nat` values below 256; Python byte
strings are `List Nat`.
-/

namespace Pytun

/-- Python exceptions that the modelled code can raise.
`unboundLocalError v` models `UnboundLocalError` for local variable `v`;
`assertionError msg` models a failing `assert cond, msg`;
`alreadyOpened` and `permissionDenied` model the two exception classes
declared inside `Tunnel`; `osError e` models `OSError`/`IOError`
carrying errno `e`. -/
inductive PyErr where
  | unboundLocalError (v : String)
  | assertionError (msg : String)
  | alreadyOpened
  | permissionDenied
  | osError (errno : Nat)
deriving DecidableEq, Repr

/-- True exactly for the errors that surface OS-level failures of `open`
(the generic `OSError` and the `PermissionDenied` wrapper), as opposed to
the programming-contract error `AlreadyOpened`. -/
def PyErr.isOSLevel : PyErr → Bool
  | .osError _ => true
  | .permissionDenied => true
  | _ => false

/-- The `Tunnel` instance state: fields `pattern`, `mode`, `name`, `fd`
set by `__init__` (lines 67-70).  `mode` is the numeric mode after the
string-to-code conversion; `name` is `None` or a Python `str`; `fd` is
`None` or a file descriptor. -/
structure Tunnel where
  pattern : String
  mode : Nat
  name : Option String
  fd : Option Nat
deriving DecidableEq, Repr

/-- The `Tunnel.MODES` dict (lines 42-45): maps the textual mode to the
numeric `IFF_TUN` / `IFF_TAP` code. -/
def MODES : List (String × Nat) := [("tun", 0x0001), ("tap", 0x0002)]

/-- The `TUNSETIFF` ioctl request number (line 48). -/
def TUNSETIFF : Nat := 0x400454ca

/-- UTF-8 encoding of one code point, modelling Python `str.encode()`
byte for byte. -/
def utf8EncodeCP (c : Nat) : List Nat :=
  if c < 0x80 then [c]
  else if c < 0x800 then [0xC0 + c / 64, 0x80 + c % 64]
  else if c < 0x10000 then [0xE0 + c / 4096, 0x80 + c / 64 % 64, 0x80 + c % 64]
  else [0xF0 + c / 262144, 0x80 + c / 4096 % 64, 0x80 + c / 64 % 64, 0x80 + c % 64]

/-- The bytes of `s.encode()` for a Python `str` `s`. -/
def strBytes (s : String) : List Nat :=
  s.data.flatMap (fun c => utf8EncodeCP c.toNat)

/-- `struct.pack("16s", bs)`: the 16-byte name field, null-padded or
truncated (Python `struct` truncates or pads an `s` field to its count). -/
def pack_16s (bs : List Nat) : List Nat :=
  bs.take 16 ++ List.replicate (16 - bs.length) 0

/-- `struct.pack("H", n)`: native-endian (little-endian on the Linux
targets) 2-byte unsigned short. -/
def packShort (n : Nat) : List Nat :=
  [n % 256, n / 256 % 256]

/-- `struct.pack("16sH", bs, n)` (line 100): the 16-byte name field
immediately followed by the 2-byte mode code; `16sH` has no alignment
padding since offset 16 is 2-aligned. -/
def pack16sH (bs : List Nat) (n : Nat) : List Nat :=
  pack_16s bs ++ packShort n

/-- Python `bytes.strip(b"\x00")`: removes null bytes from BOTH ends
(leading and trailing) of the byte string. -/
def stripNulls (bs : List Nat) : List Nat :=
  ((bs.dropWhile (fun b => b == 0)).reverse.dropWhile (fun b => b == 0)).reverse

/-- One hexadecimal digit character (lowercase), as used by the Python
`bytes` repr for non-printable bytes. -/
def hexDigit (n : Nat) : Char :=
  Char.ofNat (if n < 10 then 48 + n else 87 + n)

/-- Escape one byte inside a Python `bytes` repr delimited by `quote`
(39 = single quote, 34 = double quote): backslash and the delimiter are
backslash-escaped, tab/newline/return use their mnemonics, printable
ASCII stands for itself, and everything else becomes a lowercase
hex escape of the form backslash-x-h-h. -/
def byteReprChars (quote : Nat) (b : Nat) : List Char :=
  if b = 92 then [Char.ofNat 92, Char.ofNat 92]
  else if b = quote then [Char.ofNat 92, Char.ofNat quote]
  else if b = 9 then [Char.ofNat 92, Char.ofNat 116]
  else if b = 10 then [Char.ofNat 92, Char.ofNat 110]
  else if b = 13 then [Char.ofNat 92, Char.ofNat 114]
  else if 32 ≤ b ∧ b < 127 then [Char.ofNat b]
  else [Char.ofNat 92, Char.ofNat 120, hexDigit (b / 16 % 16), hexDigit (b % 16)]

/-- Python 3 `str(bs)` for a `bytes` object `bs`: the REPR of the bytes —
a leading `b`, a quote (single quote unless the content contains one and
no double quote), the escaped bytes, and the closing quote.  This is what
line 107 of the source actually computes. -/
def bytesRepr (bs : List Nat) : String :=
  let quote : Nat := if bs.contains 39 && !(bs.contains 34) then 34 else 39
  String.mk ([Char.ofNat 98, Char.ofNat quote]
    ++ bs.flatMap (byteReprChars quote) ++ [Char.ofNat quote])

/-- Oracle for the two OS calls `Tunnel.open` makes:
`openDev` is the outcome of `os.open("/dev/net/tun", os.O_RDWR)`
(errno on failure, the new descriptor on success); `ioctl fd req buf`
is the outcome of `fcntl.ioctl(fd, req, buf)` (errno on failure, the
returned buffer on success). -/
structure OS where
  openDev : Except Nat Nat
  ioctl : Nat → Nat → List Nat → Except Nat (List Nat)

/-- `Tunnel.__init__` (lines 50-74).  Arguments: `mode` is `None`, a
string, or a number (`Sum.inl` for `str`, `Sum.inr` for `int`);
`pattern` is `None` or a string.  Lines 63-64 compute the defaults.
Line 65 reads `auto_open = auto_open if auto_open is not None else True`:
`auto_open` is not a parameter, and the assignment makes it a local of
the function, so evaluating the right-hand side raises
`UnboundLocalError` for `auto_open` before any attribute of `self` is
set and before any OS interaction.  The constructor therefore always
fails. -/
def Tunnel.init (mode : Option (Sum String Nat)) (pattern : Option String) :
    Except PyErr Tunnel :=
  let _mode := mode.getD (Sum.inl "tun")
  let _pattern := pattern.getD ""
  Except.error (PyErr.unboundLocalError "auto_open")

/-- Lines 66-74 of `__init__`, the code AFTER the faulty `auto_open`
line (never reached by the actual constructor): sets the fields, and if
`mode` is a string replaces it by `MODES.get(mode, None)` and asserts
the result is not `None`.  When the assert fires, `self.mode` is already
`None`, so the `%r` in the message formats `None`. -/
def Tunnel.initFields (mode : Sum String Nat) (pattern : String) :
    Except PyErr Tunnel :=
  match mode with
  | Sum.inr m => Except.ok { pattern := pattern, mode := m, name := none, fd := none }
  | Sum.inl s =>
    match MODES.lookup s with
    | some m => Except.ok { pattern := pattern, mode := m, name := none, fd := none }
    | none => Except.error (PyErr.assertionError "None is not a valid tunnel type.")

/-- `Tunnel.open` (lines 89-108).  Returns the raised exception or `()`
on success, paired with the state of `self` when the call returns or the
exception escapes.  Steps, in source order:
line 94: if `self.fd is not None`, raise `AlreadyOpened` (state untouched);
line 97: `self.fd = os.open(TUN_KO_PATH, os.O_RDWR)` — on failure the
OSError propagates with `self.fd` still unset;
line 100: `fcntl.ioctl(self.fd, TUNSETIFF, struct.pack("16sH",
self.pattern.encode(), self.mode))` — on `IOError` with errno 1 raise
`PermissionDenied`, otherwise re-raise; in both cases `self.fd` KEEPS the
descriptor assigned at line 97;
line 107: `self.name = str(ret[:16].strip(b"\x00"))`. -/
def Tunnel.open (os : OS) (t : Tunnel) : Except PyErr Unit × Tunnel :=
  if t.fd.isSome then (Except.error PyErr.alreadyOpened, t)
  else
    match os.openDev with
    | Except.error e => (Except.error (PyErr.osError e), t)
    | Except.ok fd =>
      let t1 : Tunnel := { t with fd := some fd }
      match os.ioctl fd TUNSETIFF (pack16sH (strBytes t1.pattern) t1.mode) with
      | Except.error errno =>
        if errno = 1 then (Except.error PyErr.permissionDenied, t1)
        else (Except.error (PyErr.osError errno), t1)
      | Except.ok ret =>
        (Except.ok (), { t1 with name := some (bytesRepr (stripNulls (ret.take 16))) })

/-- `Tunnel.close` (lines 110-114).  Returns the descriptor passed to
`os.close` (if any) paired with the state of `self` afterwards.
Line 111 is `if self.fd:` — Python truthiness, so BOTH `None` and `0`
skip the body; otherwise `os.close(self.fd)` runs and `self.fd = None`.
`self.name` is never cleared. -/
def Tunnel.close (t : Tunnel) : Option Nat × Tunnel :=
  match t.fd with
  | none => (none, t)
  | some fd => if fd = 0 then (none, t) else (some fd, { t with fd := none })

/-! ## Concrete states and OS oracles used in witnesses and counterexamples -/

/-- A freshly closed handle: TUN mode, empty pattern, no name, no descriptor. -/
def tClosed0 : Tunnel := { pattern := "", mode := 1, name := none, fd := none }

/-- An open handle holding descriptor 3 and an assigned name. -/
def tOpen3 : Tunnel := { pattern := "", mode := 1, name := some "tun0", fd := some 3 }

/-- A handle whose descriptor is the valid OS descriptor 0. -/
def tFdZero : Tunnel := { pattern := "", mode := 1, name := some "tun0", fd := some 0 }

/-- OS oracle: opening the control device fails with errno 13 (EACCES). -/
def osOpenFail : OS := { openDev := Except.error 13, ioctl := fun _ _ _ => Except.error 13 }

/-- OS oracle: opening the control device fails with errno 1 (EPERM). -/
def osOpenEPERM : OS := { openDev := Except.error 1, ioctl := fun _ _ _ => Except.error 1 }

/-- OS oracle: the control device opens as descriptor 3, the TUNSETIFF
ioctl fails with errno 2 (ENOENT). -/
def osIoctlFail : OS := { openDev := Except.ok 3, ioctl := fun _ _ _ => Except.error 2 }

/-- OS oracle: the control device opens as descriptor 3, the TUNSETIFF
ioctl fails with errno 1 (EPERM). -/
def osIoctlEPERM : OS := { openDev := Except.ok 3, ioctl := fun _ _ _ => Except.error 1 }

/-- A kernel ioctl response whose 16-byte name field holds "tun0"
followed by 12 null bytes, then the 2-byte mode code. -/
def respTun0 : List Nat := [116, 117, 110, 48] ++ List.replicate 12 0 ++ [1, 0]

/-- OS oracle: the control device opens as descriptor 4 and the ioctl
succeeds, returning `respTun0`. -/
def osNameTun0 : OS := { openDev := Except.ok 4, ioctl := fun _ _ _ => Except.ok respTun0 }

/-! ## Claims about construction (C1, C2, C3) -/

/-- Claim C2: for every input to the constructor (any mode, any pattern,
valid or not), construction raises an unbound-local error for the name
`auto_open` before any field of the handle is initialized and before any
OS interaction; no `Tunnel` instance is ever successfully constructed. -/
theorem init_always_raises_unbound_local (mode : Option (Sum String Nat))
    (pattern : Option String) :
    Tunnel.init mode pattern = Except.error (PyErr.unboundLocalError "auto_open") ∧
    ∀ t : Tunnel, Tunnel.init mode pattern ≠ Except.ok t := by
  refine ⟨rfl, ?_⟩
  intro t h
  simp [Tunnel.init] at h

/-- Claim C1 fails on the code: constructing with each valid kind label
("tun", "tap", and the `None` default) does not succeed — it raises the
unbound-local error, so no closed-state handle is ever produced and the
construct-then-close scenario cannot run. -/
theorem init_valid_kind_still_raises :
    Tunnel.init (some (Sum.inl "tun")) (some "") =
      Except.error (PyErr.unboundLocalError "auto_open") ∧
    Tunnel.init (some (Sum.inl "tap")) (some "") =
      Except.error (PyErr.unboundLocalError "auto_open") ∧
    Tunnel.init none none =
      Except.error (PyErr.unboundLocalError "auto_open") :=
  ⟨rfl, rfl, rfl⟩

/-- Claim C3 fails on the code: constructing with the unrecognized kind
label "xyz" raises the unbound-local error, not an invalid-kind error;
the kind-validating assert of lines 72-74 (modelled by
`Tunnel.initFields`, which would raise the assertion) is never reached. -/
theorem init_invalid_kind_raises_unbound_local :
    Tunnel.init (some (Sum.inl "xyz")) none =
      Except.error (PyErr.unboundLocalError "auto_open") ∧
    Tunnel.initFields (Sum.inl "xyz") "" =
      Except.error (PyErr.assertionError "None is not a valid tunnel type.") :=
  ⟨rfl, rfl⟩

/-! ## Claims about close (C7, C10) -/

/-- Claim C10: `close` releases the descriptor only when its stored value
is truthy — on a handle whose descriptor is 0, `close` releases nothing,
does not reset the state, and the handle still holds a descriptor
afterwards (the descriptor-is-None-iff-closed invariant is violated). -/
theorem close_zero_descriptor_noop (t : Tunnel) (h : t.fd = some 0) :
    Tunnel.close t = (none, t) ∧ (Tunnel.close t).2.fd ≠ none := by
  have h1 : Tunnel.close t = (none, t) := by simp [Tunnel.close, h]
  exact ⟨h1, by rw [h1, h]; simp⟩

/-- Witness for `close_zero_descriptor_noop` at the concrete handle
`tFdZero`. -/
theorem close_zero_descriptor_noop_witness :
    Tunnel.close tFdZero = (none, tFdZero) ∧ (Tunnel.close tFdZero).2.fd ≠ none :=
  close_zero_descriptor_noop tFdZero rfl

/-- Claim C7 as stated is false: on the open handle `tOpen3` (descriptor
3, name "tun0"), `close` releases the descriptor and resets `fd`, but the
assigned name is NOT cleared — it is still "tun0" afterwards. -/
theorem close_does_not_clear_name :
    (Tunnel.close tOpen3).2.fd = none ∧
    (Tunnel.close tOpen3).2.name = some "tun0" := by
  exact ⟨rfl, rfl⟩

/-- Claim C7 amended: `close` is a no-op on a handle with no descriptor;
on a handle holding a NONZERO descriptor it releases that descriptor
exactly once (a second `close` releases nothing) and resets the state to
no-descriptor, but it leaves the assigned name unchanged. -/
theorem close_idempotent_release_once (t u : Tunnel) (n : Nat)
    (ht : t.fd = none) (hu : u.fd = some n) (hn : n ≠ 0) :
    Tunnel.close t = (none, t) ∧
    Tunnel.close u = (some n, { u with fd := none }) ∧
    (Tunnel.close u).2.name = u.name ∧
    Tunnel.close (Tunnel.close u).2 = (none, (Tunnel.close u).2) := by
  have h1 : Tunnel.close t = (none, t) := by simp [Tunnel.close, ht]
  have h2 : Tunnel.close u = (some n, { u with fd := none }) := by
    simp [Tunnel.close, hu, hn]
  exact ⟨h1, h2, by rw [h2], by rw [h2]; simp [Tunnel.close]⟩

/-- Witness for `close_idempotent_release_once` at the concrete handles
`tClosed0` and `tOpen3`. -/
theorem close_idempotent_release_once_witness :
    Tunnel.close tClosed0 = (none, tClosed0) ∧
    Tunnel.close tOpen3 = (some 3, { tOpen3 with fd := none }) ∧
    (Tunnel.close tOpen3).2.name = tOpen3.name ∧
    Tunnel.close (Tunnel.close tOpen3).2 = (none, (Tunnel.close tOpen3).2) :=
  close_idempotent_release_once tClosed0 tOpen3 3 rfl rfl (by decide)

/-! ## The control-request layout (C8) -/

/-- Claim C8: the control request built at line 100 is 18 bytes: its
first 16 bytes are the name bytes null-padded, or truncated when the
name is longer than 16 bytes (captured as the first 16 bytes of the name
followed by 16 zeros), immediately followed by the 2-byte native
little-endian mode code. -/
theorem pack16sH_layout (bs : List Nat) (mode : Nat) :
    (pack16sH bs mode).length = 18 ∧
    (pack16sH bs mode).take 16 = (bs ++ List.replicate 16 0).take 16 ∧
    (pack16sH bs mode).drop 16 = [mode % 256, mode / 256 % 256] := by
  have hlen : (pack_16s bs).length = 16 := by
    simp [pack_16s]
    omega
  refine ⟨?_, ?_, ?_⟩
  · simp [pack16sH, packShort, hlen]
  · rw [pack16sH, List.take_left' hlen, List.take_append_eq_append_take,
      List.take_replicate, pack_16s]
    have hmin : min (16 - bs.length) 16 = 16 - bs.length := by omega
    rw [hmin]
  · rw [pack16sH, List.drop_left' hlen, packShort]

/-! ## Claims about open (C4, C5, C6, C9) -/

/-- Claim C4: on a handle already holding a descriptor, `open` fails with
`AlreadyOpened` for every OS oracle, the handle state is returned
unchanged, and `AlreadyOpened` is distinct from the OS-level failures
(`osError e`, `permissionDenied`). -/
theorem open_already_opened (os : OS) (t : Tunnel) (n e : Nat)
    (h : t.fd = some n) :
    Tunnel.open os t = (Except.error PyErr.alreadyOpened, t) ∧
    PyErr.alreadyOpened.isOSLevel = false ∧
    (PyErr.osError e).isOSLevel = true ∧
    PyErr.permissionDenied.isOSLevel = true := by
  refine ⟨?_, rfl, rfl, rfl⟩
  simp [Tunnel.open, h]

/-- Witness for `open_already_opened` at the concrete open handle
`tOpen3` and the oracle `osIoctlFail`. -/
theorem open_already_opened_witness :
    Tunnel.open osIoctlFail tOpen3 = (Except.error PyErr.alreadyOpened, tOpen3) ∧
    PyErr.alreadyOpened.isOSLevel = false ∧
    (PyErr.osError 13).isOSLevel = true ∧
    PyErr.permissionDenied.isOSLevel = true :=
  open_already_opened osIoctlFail tOpen3 3 13 rfl

/-- Claim C5 as stated is false: starting from the closed handle
`tClosed0`, with the oracle `osIoctlFail` (device opens as descriptor 3,
ioctl fails with errno 2), `open` raises the generic OS error, yet the
handle afterwards still holds descriptor 3 — it is NOT left in the
closed state. -/
theorem open_failure_keeps_descriptor :
    (Tunnel.open osIoctlFail tClosed0).1 = Except.error (PyErr.osError 2) ∧
    (Tunnel.open osIoctlFail tClosed0).2.fd = some 3 ∧
    (Tunnel.open osIoctlFail tClosed0).2 ≠ tClosed0 := by
  refine ⟨rfl, rfl, by decide⟩

/-- Claim C5 amended: if `open` fails at the control-device open itself,
the handle is unchanged and still closed; but if `open` fails at the
interface-creation ioctl, the handle keeps the descriptor assigned at
line 97 — the failed `open` leaves the handle with a descriptor, not in
the closed state. -/
theorem open_failure_state (os1 os2 : OS) (t : Tunnel) (e fd errno : Nat)
    (h : t.fd = none)
    (h1 : os1.openDev = Except.error e)
    (h2 : os2.openDev = Except.ok fd)
    (h3 : os2.ioctl fd TUNSETIFF (pack16sH (strBytes t.pattern) t.mode) =
      Except.error errno) :
    Tunnel.open os1 t = (Except.error (PyErr.osError e), t) ∧
    (Tunnel.open os2 t).2.fd = some fd ∧
    (Tunnel.open os2 t).1 ≠ Except.ok () := by
  have ht : t.fd.isSome = false := by rw [h]; rfl
  refine ⟨?_, ?_, ?_⟩
  · simp [Tunnel.open, ht, h1]
  · simp only [Tunnel.open, ht, Bool.false_eq_true, if_false, h2, h3]
    split <;> rfl
  · simp only [Tunnel.open, ht, Bool.false_eq_true, if_false, h2, h3]
    split <;> simp

/-- Witness for `open_failure_state` at the closed handle `tClosed0`
with the oracles `osOpenFail` (device open fails, errno 13) and
`osIoctlFail` (device opens as 3, ioctl fails with errno 2). -/
theorem open_failure_state_witness :
    Tunnel.open osOpenFail tClosed0 = (Except.error (PyErr.osError 13), tClosed0) ∧
    (Tunnel.open osIoctlFail tClosed0).2.fd = some 3 ∧
    (Tunnel.open osIoctlFail tClosed0).1 ≠ Except.ok () :=
  open_failure_state osOpenFail osIoctlFail tClosed0 13 3 2 rfl rfl rfl rfl

/-- Claim C6 as stated is false: a permission denial (errno 1, EPERM)
raised by the control-device open — an OS call `open` makes — surfaces
as the generic `osError 1`, not as `PermissionDenied`. -/
theorem open_device_eperm_not_wrapped :
    (Tunnel.open osOpenEPERM tClosed0).1 = Except.error (PyErr.osError 1) ∧
    (Tunnel.open osOpenEPERM tClosed0).1 ≠ Except.error PyErr.permissionDenied := by
  have h1 : (Tunnel.open osOpenEPERM tClosed0).1 = Except.error (PyErr.osError 1) := rfl
  refine ⟨h1, ?_⟩
  rw [h1]
  simp

/-- Claim C6 amended: only an errno-1 (EPERM) failure of the
interface-creation ioctl surfaces as `PermissionDenied`; a failure of the
control-device open propagates as the generic OS error carrying its
errno (even when that errno is a permission denial), and an ioctl
failure with any other errno propagates as the generic OS error. -/
theorem open_error_mapping (os1 os2 os3 : OS) (t : Tunnel) (e fd errno : Nat)
    (h : t.fd = none)
    (h1 : os1.openDev = Except.error e)
    (h2 : os2.openDev = Except.ok fd)
    (h2i : os2.ioctl fd TUNSETIFF (pack16sH (strBytes t.pattern) t.mode) =
      Except.error 1)
    (h3 : os3.openDev = Except.ok fd)
    (h3i : os3.ioctl fd TUNSETIFF (pack16sH (strBytes t.pattern) t.mode) =
      Except.error errno)
    (hne : errno ≠ 1) :
    (Tunnel.open os1 t).1 = Except.error (PyErr.osError e) ∧
    (Tunnel.open os2 t).1 = Except.error PyErr.permissionDenied ∧
    (Tunnel.open os3 t).1 = Except.error (PyErr.osError errno) := by
  have ht : t.fd.isSome = false := by rw [h]; rfl
  refine ⟨?_, ?_, ?_⟩
  · simp [Tunnel.open, ht, h1]
  · simp [Tunnel.open, ht, h2, h2i]
  · simp [Tunnel.open, ht, h3, h3i, hne]

/-- Witness for `open_error_mapping` at the closed handle `tClosed0`
with the oracles `osOpenFail` (device open fails with errno 13),
`osIoctlEPERM` (ioctl fails with errno 1) and `osIoctlFail` (ioctl fails
with errno 2). -/
theorem open_error_mapping_witness :
    (Tunnel.open osOpenFail tClosed0).1 = Except.error (PyErr.osError 13) ∧
    (Tunnel.open osIoctlEPERM tClosed0).1 = Except.error PyErr.permissionDenied ∧
    (Tunnel.open osIoctlFail tClosed0).1 = Except.error (PyErr.osError 2) :=
  open_error_mapping osOpenFail osIoctlEPERM osIoctlFail tClosed0 13 3 2
    rfl rfl rfl rfl rfl rfl (by decide)

/-- Claim C9 fails on the code: with the oracle `osNameTun0`, whose ioctl
response carries the name field "tun0" followed by null padding, `open`
succeeds but stores as the assigned name the Python REPR of the trimmed
bytes object — the 7-character string b-quote-t-u-n-0-quote — rather than
the 4-character interface name "tun0". -/
theorem open_name_is_python_repr :
    (Tunnel.open osNameTun0 tClosed0).1 = Except.ok () ∧
    (Tunnel.open osNameTun0 tClosed0).2.name = some "b\x27tun0\x27" ∧
    (Tunnel.open osNameTun0 tClosed0).2.name ≠ some "tun0" := by
  refine ⟨rfl, by decide, by decide⟩

end Pytun
